import Mathlib

/-!
Shallow embedding of the daily-reflection session engine of
`src/components/DailyReflection.tsx` (FounderReflect).

The engine is the component's state (`messages`, `input`, `isLoading`,
`hasStarted`, `sessionState`) together with the handlers
`startReflection` and `sendMessage` and their helpers
`shouldEndSession`, `analyzeConversationContext`,
`generateContextualQuestion` and `saveReflection`.

External collaborators are modelled as oracle parameters:
* each `Date.now()` read is a separate field of a clock structure, in
  program order, because the handlers read the clock several times;
* the language generator calls `blink.ai.generateObject` /
  `blink.ai.generateText` are `Except Unit _` parameters: `Except.ok`
  is a successful response, `Except.error ()` a thrown GenerationError;
* persistence (`localStorage.setItem` inside `saveReflection`) is
  modelled by returning the record that is written, `none` when the
  handler returns before writing anything.

JavaScript `number` arithmetic on elapsed minutes is modelled over `ℚ`
(the values involved are integers divided by 60000, far below 2^53, so
float and rational comparisons against the constants 20 and 1 agree).
-/

namespace FounderReflect

/-- `role: 'user' | 'assistant'` of the `Message` interface. -/
inductive Role where
  | user
  | assistant
  deriving DecidableEq, Repr

/-- `interface Message` of `DailyReflection.tsx`: one conversation turn. -/
structure Message where
  id : String
  role : Role
  content : String
  timestamp : Nat
  deriving DecidableEq, Repr

/-- One value of the `topicCoverage` map of `SessionState`
(`{mentioned, explored, specificity, lastQuestionIndex}`). -/
structure TopicCoverageEntry where
  mentioned : Bool
  explored : Bool
  specificity : Nat
  lastQuestionIndex : Nat
  deriving DecidableEq, Repr

/-- `interface SessionState` of `DailyReflection.tsx`.  The
`topicCoverage` object is modelled as an association list. -/
structure SessionState where
  startTime : Nat
  questionCount : Nat
  maxQuestions : Nat
  isComplete : Bool
  topics : List String
  topicCoverage : List (String × TopicCoverageEntry)
  currentFocus : Option String
  deriving DecidableEq, Repr

/-- The structured object returned by `analyzeConversationContext`
(and requested from `blink.ai.generateObject`).  `suggestedNextTopic`
has TypeScript type `string | null`. -/
structure TopicAnalysis where
  topics : List String
  currentTopicSpecificity : ℚ
  shouldMoveToNewTopic : Bool
  suggestedNextTopic : Option String
  deriving DecidableEq, Repr

/-- Outcome of a `blink.ai.generateObject` call: a structured object, or
a thrown GenerationError. -/
abbrev ObjectGenResult := Except Unit TopicAnalysis

/-- Outcome of a `blink.ai.generateText` call: text, or a thrown
GenerationError. -/
abbrev TextGenResult := Except Unit String

/-- The record `saveReflection` persists for one `(user, date)` key
(`reflectionData` in the source). -/
structure ReflectionRecord where
  messages : List Message
  sessionState : SessionState
  date : String
  userId : String
  updatedAt : Nat
  deriving DecidableEq, Repr

/-- The component state that the reflection handlers read and write. -/
structure EngineState where
  messages : List Message
  input : String
  isLoading : Bool
  hasStarted : Bool
  sessionState : SessionState
  deriving DecidableEq, Repr

/-- ECMAScript white space for `String.prototype.trim`: WhiteSpace
(TAB, VT, FF, SP, NBSP, ZWNBSP and Unicode Zs) plus LineTerminator
(LF, CR, LS, PS). -/
def jsWhitespace (c : Char) : Bool :=
  c.toNat == 0x9 || c.toNat == 0xA || c.toNat == 0xB || c.toNat == 0xC ||
  c.toNat == 0xD || c.toNat == 0x20 || c.toNat == 0xA0 || c.toNat == 0x1680 ||
  (0x2000 ≤ c.toNat && c.toNat ≤ 0x200A) ||
  c.toNat == 0x2028 || c.toNat == 0x2029 || c.toNat == 0x202F ||
  c.toNat == 0x205F || c.toNat == 0x3000 || c.toNat == 0xFEFF

/-- JavaScript `String.prototype.trim`: strip leading and trailing
white space. -/
def jsTrim (s : String) : String :=
  String.mk (((s.toList.dropWhile jsWhitespace).reverse.dropWhile jsWhitespace).reverse)

/-- The `Date.now()` reads performed during one `startReflection` call,
in program order: `newSessionState.startTime`, `welcomeMessage.id`,
`welcomeMessage.timestamp`, and `updatedAt` inside `saveReflection`. -/
structure StartClocks where
  tStart : Nat
  tWelcomeId : Nat
  tWelcomeTs : Nat
  tSave : Nat
  deriving DecidableEq, Repr

/-- The `Date.now()` reads performed during one `sendMessage` call, in
program order: `userMessage.id`, `userMessage.timestamp`, the read at
the top of `generateContextualQuestion`, `assistantMessage.id` (plus 1),
`assistantMessage.timestamp`, the read for the final end-condition
check, and `updatedAt` inside `saveReflection`. -/
structure TurnClocks where
  tUserId : Nat
  tUserTs : Nat
  tGen : Nat
  tAsstId : Nat
  tAsstTs : Nat
  tEnd : Nat
  tSave : Nat
  deriving DecidableEq, Repr

/-- `saveReflection` builds `reflectionData` and writes it under the
`(user.id, todayDate)` key; the model returns the written record. -/
def saveReflection (userId todayDate : String) (tSave : Nat)
    (newMessages : List Message) (newSessionState : SessionState) :
    ReflectionRecord :=
  { messages := newMessages
    sessionState := newSessionState
    date := todayDate
    userId := userId
    updatedAt := tSave }

/-- `analyzeConversationContext`: with fewer than 2 messages the call is
skipped and a neutral/empty result returned; otherwise the structured
generator result is returned, or on GenerationError the fixed
`{topics: [], currentTopicSpecificity: 1, shouldMoveToNewTopic: false,
suggestedNextTopic: null}` default.  (The `messages.slice(-4)` window
only shapes the prompt text, which is not modelled.) -/
def analyzeConversationContext (messages : List Message)
    (genObject : ObjectGenResult) : TopicAnalysis :=
  if messages.length < 2 then
    { topics := []
      currentTopicSpecificity := 0
      shouldMoveToNewTopic := false
      suggestedNextTopic := none }
  else
    match genObject with
    | Except.ok object => object
    | Except.error _ =>
        { topics := []
          currentTopicSpecificity := 1
          shouldMoveToNewTopic := false
          suggestedNextTopic := none }

/-- `shouldEndSession(currentSession, elapsedMinutes)`. -/
def shouldEndSession (currentSession : SessionState)
    (elapsedMinutes : ℚ) : Bool :=
  decide (currentSession.maxQuestions ≤ currentSession.questionCount) ||
  decide ((20 : ℚ) ≤ elapsedMinutes) ||
  currentSession.isComplete

/-- The fixed closing message returned by `generateContextualQuestion`
when the end condition holds (template literal at its top; the final
four characters are the mojibake actually present in the source). -/
def closingMessage : String :=
  "Thank you for taking time to reflect today! You've covered some important ground. \n\nBased on our conversation, here's what I'm hearing:\n- You're making progress on your startup journey\n- You have clear next steps to focus on\n\nRemember: consistent daily reflection, even just 15-20 minutes, builds momentum over time. \n\nYour reflection is complete for today. See you tomorrow! ðŸš€"

/-- Fallback question used when text generation fails and at most one
question slot remains. -/
def fallbackFinalQuestion : String :=
  "What's one specific action you'll take tomorrow to move your startup forward?"

/-- Fallback question used when text generation fails and more than one
question slot remains. -/
def fallbackChallengeQuestion : String :=
  "What's one specific challenge you're facing today, and what small step could you take to move forward?"

/-- `generateContextualQuestion(conversationHistory, currentSession)`.
`now` is its `Date.now()` read.  If `shouldEndSession` holds it returns
the fixed closing message without calling the generator; otherwise it
runs `analyzeConversationContext` (whose result only feeds the prompt
text) and returns the generated text, or on GenerationError one of two
fixed fallback questions chosen by `questionsRemaining <= 1`. -/
def generateContextualQuestion (conversationHistory : List Message)
    (currentSession : SessionState) (now : Nat)
    (genObject : ObjectGenResult) (genText : TextGenResult) : String :=
  let elapsedMinutes : ℚ :=
    ((now : ℚ) - (currentSession.startTime : ℚ)) / (1000 * 60)
  let questionsRemaining : Int :=
    (currentSession.maxQuestions : Int) - (currentSession.questionCount : Int)
  if shouldEndSession currentSession elapsedMinutes then
    closingMessage
  else
    let _analysis := analyzeConversationContext conversationHistory genObject
    match genText with
    | Except.ok text => text
    | Except.error _ =>
        if questionsRemaining ≤ 1 then fallbackFinalQuestion
        else fallbackChallengeQuestion

/-- The fixed, hand-authored opening assistant message of
`startReflection`. -/
def welcomeContent : String :=
  "Welcome to your daily reflection! I'm here to help you think through your startup journey in the next 15-20 minutes. Let's start with something positive: What's one thing you accomplished yesterday that moved your startup forward, no matter how small?"

/-- `startReflection`: unconditionally installs a fresh `SessionState`,
replaces the message list with the single fixed welcome message, and
persists both.  Returns the final component state (after
`setIsLoading(false)`) and the persisted record. -/
def startReflection (st : EngineState) (c : StartClocks)
    (userId todayDate : String) : EngineState × ReflectionRecord :=
  let newSessionState : SessionState :=
    { startTime := c.tStart
      questionCount := 0
      maxQuestions := 5
      isComplete := false
      topics := []
      topicCoverage := []
      currentFocus := none }
  let welcomeMessage : Message :=
    { id := toString c.tWelcomeId
      role := Role.assistant
      content := welcomeContent
      timestamp := c.tWelcomeTs }
  let newMessages := [welcomeMessage]
  ({ st with
      hasStarted := true
      sessionState := newSessionState
      messages := newMessages
      isLoading := false },
   saveReflection userId todayDate c.tSave newMessages newSessionState)

/-- `sendMessage`: the guard `!input.trim() || isLoading ||
sessionState.isComplete` returns early (nothing appended, nothing
persisted, state unchanged).  Otherwise: append the trimmed user
message, increment a working copy of `questionCount`, obtain the
assistant reply from `generateContextualQuestion`, append it, recompute
the end condition at a fresh clock read to set `isComplete`, and persist
`{messages, sessionState}`.  Returns the final component state (with
`input` cleared and `isLoading` reset) and the persisted record if any. -/
def sendMessage (st : EngineState) (c : TurnClocks)
    (genObject : ObjectGenResult) (genText : TextGenResult)
    (userId todayDate : String) : EngineState × Option ReflectionRecord :=
  if jsTrim st.input = "" ∨ st.isLoading = true ∨ st.sessionState.isComplete = true then
    (st, none)
  else
    let userMessage : Message :=
      { id := toString c.tUserId
        role := Role.user
        content := jsTrim st.input
        timestamp := c.tUserTs }
    let updatedMessages := st.messages ++ [userMessage]
    let updatedSessionState : SessionState :=
      { st.sessionState with questionCount := st.sessionState.questionCount + 1 }
    let aiResponse :=
      generateContextualQuestion updatedMessages updatedSessionState c.tGen genObject genText
    let assistantMessage : Message :=
      { id := toString (c.tAsstId + 1)
        role := Role.assistant
        content := aiResponse
        timestamp := c.tAsstTs }
    let finalMessages := updatedMessages ++ [assistantMessage]
    let elapsedMinutes : ℚ :=
      ((c.tEnd : ℚ) - (updatedSessionState.startTime : ℚ)) / (1000 * 60)
    let finalSessionState : SessionState :=
      { updatedSessionState with
          isComplete := shouldEndSession updatedSessionState elapsedMinutes }
    ({ st with
        messages := finalMessages
        sessionState := finalSessionState
        input := ""
        isLoading := false },
     some (saveReflection userId todayDate c.tSave finalMessages finalSessionState))

/-- Engine states reachable within one `(user, date)` session: the state
right after `startReflection`, then any interleaving of the user typing
into the input box and submitting turns. -/
inductive Reachable (userId todayDate : String) : EngineState → Prop where
  | start (st0 : EngineState) (c : StartClocks) :
      Reachable userId todayDate (startReflection st0 c userId todayDate).1
  | typed (st : EngineState) (s : String) :
      Reachable userId todayDate st →
      Reachable userId todayDate { st with input := s }
  | turn (st : EngineState) (c : TurnClocks)
      (gO : ObjectGenResult) (gT : TextGenResult) :
      Reachable userId todayDate st →
      Reachable userId todayDate (sendMessage st c gO gT userId todayDate).1

/-! ### Named decompositions of the value one `sendMessage` turn computes
(abbreviations for the `let`-bound values of `sendMessage`, used to state
lemmas; they introduce no behaviour of their own). -/

/-- The `userMessage` value built by a `sendMessage` turn. -/
def pendingUserMessage (st : EngineState) (c : TurnClocks) : Message :=
  { id := toString c.tUserId
    role := Role.user
    content := jsTrim st.input
    timestamp := c.tUserTs }

/-- The `updatedSessionState` value of a `sendMessage` turn (working copy
with `questionCount` incremented). -/
def bumpedSession (st : EngineState) : SessionState :=
  { st.sessionState with questionCount := st.sessionState.questionCount + 1 }

/-- The `aiResponse` value of a `sendMessage` turn. -/
def turnReply (st : EngineState) (c : TurnClocks) (gO : ObjectGenResult)
    (gT : TextGenResult) : String :=
  generateContextualQuestion (st.messages ++ [pendingUserMessage st c])
    (bumpedSession st) c.tGen gO gT

/-- The `assistantMessage` value of a `sendMessage` turn. -/
def turnAssistantMessage (st : EngineState) (c : TurnClocks) (gO : ObjectGenResult)
    (gT : TextGenResult) : Message :=
  { id := toString (c.tAsstId + 1)
    role := Role.assistant
    content := turnReply st c gO gT
    timestamp := c.tAsstTs }

/-- The `finalSessionState` value of a `sendMessage` turn. -/
def turnFinalSession (st : EngineState) (c : TurnClocks) : SessionState :=
  { bumpedSession st with
      isComplete := shouldEndSession (bumpedSession st)
        (((c.tEnd : ℚ) - ((bumpedSession st).startTime : ℚ)) / (1000 * 60)) }

/-! ### Concrete states and clocks used by witnesses and counterexamples -/

/-- Component state before any session exists (the initial `useState`
values of the component). -/
def exInit : EngineState :=
  { messages := []
    input := ""
    isLoading := false
    hasStarted := false
    sessionState :=
      { startTime := 0, questionCount := 0, maxQuestions := 5, isComplete := false,
        topics := [], topicCoverage := [], currentFocus := none } }

/-- Clock reads for an example `startReflection` call. -/
def exStartClocks : StartClocks := ⟨1000, 1000, 1000, 1001⟩

/-- State right after the example `startReflection`. -/
def exStart : EngineState :=
  (startReflection exInit exStartClocks ("u1") ("2026-01-01")).1

/-- The started state after the user has typed a first answer. -/
def exTyped : EngineState := { exStart with input := "We shipped the onboarding flow" }

/-- Clock reads for a turn submitted well past the 20-minute budget
(session started at 1000 ms). -/
def cLate : TurnClocks := ⟨2000000, 2000000, 2000001, 2000002, 2000002, 2000003, 2000004⟩

/-- State after submitting a turn on `exTyped` with both generator calls
failing, past the 20-minute budget. -/
def exDone : EngineState :=
  (sendMessage exTyped cLate (Except.error ()) (Except.error ()) ("u1") ("2026-01-01")).1

/-- Clock reads for a turn submitted about one minute in. -/
def cMid : TurnClocks := ⟨61000, 61000, 61001, 61002, 61002, 61003, 61004⟩

/-- Clock reads straddling the 20-minute boundary: the read inside
`generateContextualQuestion` happens just before 20 minutes have
elapsed, the read for the final end-condition check just after. -/
def cRace : TurnClocks := ⟨1200998, 1200998, 1200999, 1201000, 1201000, 1201001, 1201002⟩

/-- A successful topic analysis that detects the topic `funding`. -/
def exAnalysisFunding : TopicAnalysis :=
  { topics := ["funding"]
    currentTopicSpecificity := 2
    shouldMoveToNewTopic := false
    suggestedNextTopic := some ("goals_status") }

/-- A state holding a finished prior session for the day: non-empty
transcript and `isComplete = true`. -/
def exStale : EngineState :=
  { messages := [{ id := "10", role := Role.assistant, content := "old opening", timestamp := 10 },
                 { id := "11", role := Role.user, content := "old answer", timestamp := 11 }]
    input := "hello again"
    isLoading := false
    hasStarted := true
    sessionState :=
      { startTime := 0, questionCount := 5, maxQuestions := 5, isComplete := true,
        topics := [], topicCoverage := [], currentFocus := none } }

/-- A started state whose input box holds only white space. -/
def exBlank : EngineState := { exStart with input := "   " }

/-! ### Arithmetic and unfolding lemmas -/

/-- 20 minutes in milliseconds have passed iff the elapsed-minutes
quotient reaches 20. -/
theorem elapsedMinutes_ge_twenty {startTime now : Nat}
    (h : startTime + 1200000 ≤ now) :
    (20 : ℚ) ≤ ((now : ℚ) - (startTime : ℚ)) / (1000 * 60) := by
  rw [le_div_iff₀ (by norm_num : (0 : ℚ) < 1000 * 60)]
  have h' : (startTime : ℚ) + 1200000 ≤ (now : ℚ) := by exact_mod_cast h
  linarith

/-- Strictly below 20 minutes in milliseconds, the elapsed-minutes
quotient is below 20. -/
theorem elapsedMinutes_lt_twenty {startTime now : Nat}
    (h : now < startTime + 1200000) :
    ((now : ℚ) - (startTime : ℚ)) / (1000 * 60) < 20 := by
  rw [div_lt_iff₀ (by norm_num : (0 : ℚ) < 1000 * 60)]
  have h' : (now : ℚ) < (startTime : ℚ) + 1200000 := by exact_mod_cast h
  linarith

theorem shouldEndSession_of_time (s : SessionState) {e : ℚ} (h : 20 ≤ e) :
    shouldEndSession s e = true := by
  simp [shouldEndSession, h]

theorem shouldEndSession_of_count (s : SessionState) (e : ℚ)
    (h : s.maxQuestions ≤ s.questionCount) :
    shouldEndSession s e = true := by
  simp [shouldEndSession, h]

theorem shouldEndSession_eq_false (s : SessionState) (e : ℚ)
    (hq : s.questionCount < s.maxQuestions) (ht : e < 20)
    (hc : s.isComplete = false) :
    shouldEndSession s e = false := by
  simp [shouldEndSession, hc, not_le.mpr hq, not_le.mpr ht]

theorem questionCount_lt_of_shouldEnd_false {s : SessionState} {e : ℚ}
    (h : shouldEndSession s e = false) :
    s.questionCount < s.maxQuestions := by
  by_contra hc
  rw [shouldEndSession_of_count s e (Nat.le_of_not_lt hc)] at h
  simp at h

/-- When the end condition holds, `generateContextualQuestion` returns
the fixed closing message, whatever the generator oracles hold. -/
theorem generateContextualQuestion_end (history : List Message)
    (s : SessionState) (now : Nat) (gO : ObjectGenResult) (gT : TextGenResult)
    (h : shouldEndSession s (((now : ℚ) - (s.startTime : ℚ)) / (1000 * 60)) = true) :
    generateContextualQuestion history s now gO gT = closingMessage := by
  simp only [generateContextualQuestion, h, if_true]

/-- When the end condition fails and text generation succeeds, the
generated text is returned. -/
theorem generateContextualQuestion_ok (history : List Message)
    (s : SessionState) (now : Nat) (gO : ObjectGenResult) (t : String)
    (h : shouldEndSession s (((now : ℚ) - (s.startTime : ℚ)) / (1000 * 60)) = false) :
    generateContextualQuestion history s now gO (Except.ok t) = t := by
  simp only [generateContextualQuestion, h, Bool.false_eq_true, if_false]

/-- When the end condition fails and text generation throws, one of the
two fixed fallback questions is returned, chosen by the remaining
question slots. -/
theorem generateContextualQuestion_fallback (history : List Message)
    (s : SessionState) (now : Nat) (gO : ObjectGenResult)
    (h : shouldEndSession s (((now : ℚ) - (s.startTime : ℚ)) / (1000 * 60)) = false) :
    generateContextualQuestion history s now gO (Except.error ()) =
      if (s.maxQuestions : Int) - (s.questionCount : Int) ≤ 1
      then fallbackFinalQuestion else fallbackChallengeQuestion := by
  simp only [generateContextualQuestion, h, Bool.false_eq_true, if_false]

/-- The early return of `sendMessage`: blank input, a pending turn, or a
complete session leaves everything unchanged and persists nothing. -/
theorem sendMessage_noop (st : EngineState) (c : TurnClocks)
    (gO : ObjectGenResult) (gT : TextGenResult) (u d : String)
    (h : jsTrim st.input = "" ∨ st.isLoading = true ∨ st.sessionState.isComplete = true) :
    sendMessage st c gO gT u d = (st, none) := by
  simp only [sendMessage]
  rw [if_pos h]

/-- The full effect of a `sendMessage` turn that passes the guard. -/
theorem sendMessage_run (st : EngineState) (c : TurnClocks)
    (gO : ObjectGenResult) (gT : TextGenResult) (u d : String)
    (h1 : ¬ jsTrim st.input = "") (h2 : st.isLoading = false)
    (h3 : st.sessionState.isComplete = false) :
    sendMessage st c gO gT u d =
      ({ st with
          messages := (st.messages ++ [pendingUserMessage st c]) ++
            [turnAssistantMessage st c gO gT]
          sessionState := turnFinalSession st c
          input := ""
          isLoading := false },
       some (saveReflection u d c.tSave
         ((st.messages ++ [pendingUserMessage st c]) ++ [turnAssistantMessage st c gO gT])
         (turnFinalSession st c))) := by
  have hg : ¬ (jsTrim st.input = "" ∨ st.isLoading = true ∨ st.sessionState.isComplete = true) := by
    simp [h1, h2, h3]
  simp only [sendMessage]
  rw [if_neg hg]
  rfl

/-- Invariant of every reachable session state: `maxQuestions` stays at
its configured value 5, `questionCount` never exceeds it (strictly below
while the session is open), and `topics` is never written after
initialization. -/
theorem reachable_inv (u d : String) (st : EngineState)
    (h : Reachable u d st) :
    st.sessionState.maxQuestions = 5 ∧
    st.sessionState.questionCount ≤ st.sessionState.maxQuestions ∧
    (st.sessionState.isComplete = false →
      st.sessionState.questionCount < st.sessionState.maxQuestions) ∧
    st.sessionState.topics = [] := by
  induction h with
  | start st0 c =>
      exact ⟨rfl, Nat.zero_le 5, fun _ => Nat.lt_of_sub_eq_succ rfl, rfl⟩
  | typed st s hr ih =>
      exact ih
  | turn st c gO gT hr ih =>
      by_cases hg : jsTrim st.input = "" ∨ st.isLoading = true ∨ st.sessionState.isComplete = true
      · rw [sendMessage_noop st c gO gT u d hg]
        exact ih
      · push_neg at hg
        obtain ⟨hg1, hg2, hg3⟩ := hg
        have hg2' : st.isLoading = false := by simpa using hg2
        have hg3' : st.sessionState.isComplete = false := by simpa using hg3
        rw [sendMessage_run st c gO gT u d hg1 hg2' hg3']
        obtain ⟨ihMax, _, ihLt, ihTopics⟩ := ih
        have hlt : st.sessionState.questionCount < st.sessionState.maxQuestions := ihLt hg3'
        refine ⟨ihMax, hlt, ?_, ihTopics⟩
        intro hopen
        have hopen' : shouldEndSession (bumpedSession st)
            (((c.tEnd : ℚ) - ((bumpedSession st).startTime : ℚ)) / (1000 * 60)) = false := hopen
        exact @questionCount_lt_of_shouldEnd_false (bumpedSession st) _ hopen'

/-- `exTyped` is reachable: `startReflection`, then typing an answer. -/
theorem exTyped_reachable : Reachable ("u1") ("2026-01-01") exTyped :=
  Reachable.typed exStart ("We shipped the onboarding flow")
    (Reachable.start exInit exStartClocks)

/-- `exDone` is reachable: one submitted turn on `exTyped`. -/
theorem exDone_reachable : Reachable ("u1") ("2026-01-01") exDone :=
  Reachable.turn exTyped cLate (Except.error ()) (Except.error ()) exTyped_reachable

/-- The late turn marks the example session complete. -/
theorem exDone_isComplete : exDone.sessionState.isComplete = true := by
  show ((sendMessage exTyped cLate (Except.error ()) (Except.error ())
      ("u1") ("2026-01-01")).1).sessionState.isComplete = true
  rw [sendMessage_run exTyped cLate (Except.error ()) (Except.error ())
    ("u1") ("2026-01-01") (by decide) rfl rfl]
  show shouldEndSession (bumpedSession exTyped)
      (((cLate.tEnd : ℚ) - ((bumpedSession exTyped).startTime : ℚ)) / (1000 * 60)) = true
  exact shouldEndSession_of_time _ (elapsedMinutes_ge_twenty (by decide))

/-! ### Claims -/

/-- C3: once a session's `isComplete` flag is true, `sendMessage` is a
no-op for that `(user, date)`: no messages appended, no state change,
nothing persisted. -/
theorem c3_complete_session_terminal (st : EngineState) (c : TurnClocks)
    (gO : ObjectGenResult) (gT : TextGenResult) (u d : String)
    (h : st.sessionState.isComplete = true) :
    sendMessage st c gO gT u d = (st, none) := by
  simp only [sendMessage]
  rw [if_pos (Or.inr (Or.inr h))]

theorem c3_witness :
    sendMessage exStale cMid (Except.error ()) (Except.ok ("next question"))
      ("u1") ("2026-01-01") = (exStale, none) :=
  c3_complete_session_terminal exStale cMid (Except.error ())
    (Except.ok ("next question")) ("u1") ("2026-01-01") rfl

/-- C4: submitting input that is empty or whitespace-only after trimming
performs no work: message list, session state and store are untouched. -/
theorem c4_blank_input_noop (st : EngineState) (c : TurnClocks)
    (gO : ObjectGenResult) (gT : TextGenResult) (u d : String)
    (h : jsTrim st.input = "") :
    sendMessage st c gO gT u d = (st, none) := by
  simp only [sendMessage]
  rw [if_pos (Or.inl h)]

theorem c4_witness :
    sendMessage exBlank cMid (Except.error ()) (Except.ok ("next question"))
      ("u1") ("2026-01-01") = (exBlank, none) :=
  c4_blank_input_noop exBlank cMid (Except.error ())
    (Except.ok ("next question")) ("u1") ("2026-01-01") (by decide)

/-- C7: `startReflection` establishes exactly the fresh session state
`{startTime = now, questionCount = 0, maxQuestions = 5, isComplete =
false, topics = [], topicCoverage = [], currentFocus = none}`, a message
list holding only the fixed assistant-authored opening message (no
generator involved: `startReflection` takes no generator oracle at all),
and persists both under the `(user, date)` key. -/
theorem c7_startReflection_post (st : EngineState) (c : StartClocks)
    (u d : String) :
    (startReflection st c u d).1.sessionState =
      { startTime := c.tStart, questionCount := 0, maxQuestions := 5,
        isComplete := false, topics := [], topicCoverage := [],
        currentFocus := none } ∧
    (startReflection st c u d).1.messages =
      [{ id := toString c.tWelcomeId, role := Role.assistant,
         content := welcomeContent, timestamp := c.tWelcomeTs }] ∧
    (startReflection st c u d).1.hasStarted = true ∧
    (startReflection st c u d).2 =
      { messages := (startReflection st c u d).1.messages
        sessionState := (startReflection st c u d).1.sessionState
        date := d
        userId := u
        updatedAt := c.tSave } :=
  ⟨rfl, rfl, rfl, rfl⟩

/-- C10: `startReflection` enforces no precondition on existing state:
even when the current state holds a non-empty transcript of a session
already flagged complete, it unconditionally installs a fresh session
state and persists a record whose message list holds only the fixed
opening message, discarding the prior transcript. -/
theorem c10_startReflection_unconditional_reset (st : EngineState)
    (c : StartClocks) (u d : String)
    (hPrev : st.messages ≠ []) (hDone : st.sessionState.isComplete = true) :
    (startReflection st c u d).1.messages =
      [{ id := toString c.tWelcomeId, role := Role.assistant,
         content := welcomeContent, timestamp := c.tWelcomeTs }] ∧
    (startReflection st c u d).1.sessionState =
      { startTime := c.tStart, questionCount := 0, maxQuestions := 5,
        isComplete := false, topics := [], topicCoverage := [],
        currentFocus := none } ∧
    (startReflection st c u d).2.messages =
      [{ id := toString c.tWelcomeId, role := Role.assistant,
         content := welcomeContent, timestamp := c.tWelcomeTs }] :=
  ⟨rfl, rfl, rfl⟩

theorem c10_witness :
    (startReflection exStale exStartClocks ("u1") ("2026-01-01")).1.messages =
      [{ id := toString exStartClocks.tWelcomeId, role := Role.assistant,
         content := welcomeContent, timestamp := exStartClocks.tWelcomeTs }] ∧
    (startReflection exStale exStartClocks ("u1") ("2026-01-01")).1.sessionState =
      { startTime := exStartClocks.tStart, questionCount := 0, maxQuestions := 5,
        isComplete := false, topics := [], topicCoverage := [],
        currentFocus := none } ∧
    (startReflection exStale exStartClocks ("u1") ("2026-01-01")).2.messages =
      [{ id := toString exStartClocks.tWelcomeId, role := Role.assistant,
         content := welcomeContent, timestamp := exStartClocks.tWelcomeTs }] :=
  c10_startReflection_unconditional_reset exStale exStartClocks
    ("u1") ("2026-01-01") (by decide) rfl

/-- C1: for every reachable session state whose `isComplete` flag is
true — in particular at the moment it became true — `questionCount` is
at most `maxQuestions` (= 5); and `isComplete` never reverts: any
subsequent `sendMessage` leaves the state unchanged (early return), so
its result is still complete. -/
theorem c1_count_bounded_complete_monotone (u d : String)
    (st : EngineState) (h : Reachable u d st) (c : TurnClocks)
    (gO : ObjectGenResult) (gT : TextGenResult)
    (hc : st.sessionState.isComplete = true) :
    st.sessionState.questionCount ≤ st.sessionState.maxQuestions ∧
    st.sessionState.maxQuestions = 5 ∧
    sendMessage st c gO gT u d = (st, none) ∧
    (sendMessage st c gO gT u d).1.sessionState.isComplete = true := by
  obtain ⟨hmax, hle, -, -⟩ := reachable_inv u d st h
  have hn := sendMessage_noop st c gO gT u d (Or.inr (Or.inr hc))
  refine ⟨hle, hmax, hn, ?_⟩
  rw [hn]
  exact hc

theorem c1_witness :
    exDone.sessionState.questionCount ≤ exDone.sessionState.maxQuestions ∧
    exDone.sessionState.maxQuestions = 5 ∧
    sendMessage exDone cMid (Except.error ()) (Except.ok ("another question"))
      ("u1") ("2026-01-01") = (exDone, none) ∧
    (sendMessage exDone cMid (Except.error ()) (Except.ok ("another question"))
      ("u1") ("2026-01-01")).1.sessionState.isComplete = true :=
  c1_count_bounded_complete_monotone ("u1") ("2026-01-01") exDone
    exDone_reachable cMid (Except.error ()) (Except.ok ("another question"))
    exDone_isComplete

/-- C2: when at least 20 minutes have elapsed since `startTime` at the
moment a turn is submitted (so both `Date.now()` reads of the turn are
at or past `startTime + 1200000` ms), the assistant message appended by
that turn is the fixed closing message — whatever the generator oracles
hold, i.e. no generator output is consulted — and `isComplete` is set
true by that turn, regardless of `questionCount`. -/
theorem c2_timeout_forces_closing (st : EngineState) (c : TurnClocks)
    (gO : ObjectGenResult) (gT : TextGenResult) (u d : String)
    (hInput : ¬ jsTrim st.input = "") (hLoad : st.isLoading = false)
    (hOpen : st.sessionState.isComplete = false)
    (hGen : st.sessionState.startTime + 1200000 ≤ c.tGen)
    (hEnd : st.sessionState.startTime + 1200000 ≤ c.tEnd) :
    (sendMessage st c gO gT u d).1.messages =
      st.messages ++
        [pendingUserMessage st c,
         { id := toString (c.tAsstId + 1), role := Role.assistant,
           content := closingMessage, timestamp := c.tAsstTs }] ∧
    (sendMessage st c gO gT u d).1.sessionState.isComplete = true ∧
    (sendMessage st c gO gT u d).2 =
      some (saveReflection u d c.tSave
        (sendMessage st c gO gT u d).1.messages
        (sendMessage st c gO gT u d).1.sessionState) := by
  have hclose : turnReply st c gO gT = closingMessage := by
    apply generateContextualQuestion_end
    exact shouldEndSession_of_time _ (elapsedMinutes_ge_twenty hGen)
  have hdone : (turnFinalSession st c).isComplete = true := by
    show shouldEndSession (bumpedSession st)
      (((c.tEnd : ℚ) - ((bumpedSession st).startTime : ℚ)) / (1000 * 60)) = true
    exact shouldEndSession_of_time _ (elapsedMinutes_ge_twenty hEnd)
  rw [sendMessage_run st c gO gT u d hInput hLoad hOpen]
  refine ⟨?_, hdone, rfl⟩
  show (st.messages ++ [pendingUserMessage st c]) ++ [turnAssistantMessage st c gO gT] = _
  rw [List.append_assoc]
  show st.messages ++ [pendingUserMessage st c, turnAssistantMessage st c gO gT] = _
  rw [turnAssistantMessage, hclose]

theorem c2_witness :
    (sendMessage exTyped cLate (Except.ok exAnalysisFunding)
        (Except.ok ("ignored question")) ("u1") ("2026-01-01")).1.messages =
      exTyped.messages ++
        [pendingUserMessage exTyped cLate,
         { id := toString (cLate.tAsstId + 1), role := Role.assistant,
           content := closingMessage, timestamp := cLate.tAsstTs }] ∧
    (sendMessage exTyped cLate (Except.ok exAnalysisFunding)
        (Except.ok ("ignored question")) ("u1") ("2026-01-01")).1.sessionState.isComplete = true ∧
    (sendMessage exTyped cLate (Except.ok exAnalysisFunding)
        (Except.ok ("ignored question")) ("u1") ("2026-01-01")).2 =
      some (saveReflection ("u1") ("2026-01-01") cLate.tSave
        (sendMessage exTyped cLate (Except.ok exAnalysisFunding)
          (Except.ok ("ignored question")) ("u1") ("2026-01-01")).1.messages
        (sendMessage exTyped cLate (Except.ok exAnalysisFunding)
          (Except.ok ("ignored question")) ("u1") ("2026-01-01")).1.sessionState) :=
  c2_timeout_forces_closing exTyped cLate (Except.ok exAnalysisFunding)
    (Except.ok ("ignored question")) ("u1") ("2026-01-01")
    (by decide) rfl rfl (by decide) (by decide)

/-- C5: on a started, non-complete session with non-blank input, if the
structured topic-analysis call throws, the analysis value used by the
turn is the neutral default `{topics = [], currentTopicSpecificity = 1,
shouldMoveToNewTopic = false, suggestedNextTopic = none}`, and the turn
still completes: exactly one assistant message is appended after the
user message and the updated record is persisted. -/
theorem c5_analysis_failure_graceful (st : EngineState) (c : TurnClocks)
    (gT : TextGenResult) (u d : String)
    (hInput : ¬ jsTrim st.input = "") (hLoad : st.isLoading = false)
    (hOpen : st.sessionState.isComplete = false)
    (hStarted : st.messages ≠ []) :
    analyzeConversationContext (st.messages ++ [pendingUserMessage st c])
        (Except.error ()) =
      { topics := [], currentTopicSpecificity := 1,
        shouldMoveToNewTopic := false, suggestedNextTopic := none } ∧
    (turnAssistantMessage st c (Except.error ()) gT).role = Role.assistant ∧
    (sendMessage st c (Except.error ()) gT u d).1.messages =
      st.messages ++
        [pendingUserMessage st c, turnAssistantMessage st c (Except.error ()) gT] ∧
    (sendMessage st c (Except.error ()) gT u d).2 =
      some (saveReflection u d c.tSave
        (sendMessage st c (Except.error ()) gT u d).1.messages
        (sendMessage st c (Except.error ()) gT u d).1.sessionState) := by
  have hlen : ¬ (st.messages ++ [pendingUserMessage st c]).length < 2 := by
    have hpos := List.length_pos.mpr hStarted
    simp only [List.length_append, List.length_cons, List.length_nil]
    omega
  refine ⟨?_, rfl, ?_, ?_⟩
  · simp only [analyzeConversationContext, if_neg hlen]
  · rw [sendMessage_run st c (Except.error ()) gT u d hInput hLoad hOpen]
    exact List.append_assoc _ _ _
  · rw [sendMessage_run st c (Except.error ()) gT u d hInput hLoad hOpen]

theorem c5_witness :
    analyzeConversationContext (exTyped.messages ++ [pendingUserMessage exTyped cMid])
        (Except.error ()) =
      { topics := [], currentTopicSpecificity := 1,
        shouldMoveToNewTopic := false, suggestedNextTopic := none } ∧
    (turnAssistantMessage exTyped cMid (Except.error ())
        (Except.ok ("What blocked you today?"))).role = Role.assistant ∧
    (sendMessage exTyped cMid (Except.error ())
        (Except.ok ("What blocked you today?")) ("u1") ("2026-01-01")).1.messages =
      exTyped.messages ++
        [pendingUserMessage exTyped cMid,
         turnAssistantMessage exTyped cMid (Except.error ())
           (Except.ok ("What blocked you today?"))] ∧
    (sendMessage exTyped cMid (Except.error ())
        (Except.ok ("What blocked you today?")) ("u1") ("2026-01-01")).2 =
      some (saveReflection ("u1") ("2026-01-01") cMid.tSave
        (sendMessage exTyped cMid (Except.error ())
          (Except.ok ("What blocked you today?")) ("u1") ("2026-01-01")).1.messages
        (sendMessage exTyped cMid (Except.error ())
          (Except.ok ("What blocked you today?")) ("u1") ("2026-01-01")).1.sessionState) :=
  c5_analysis_failure_graceful exTyped cMid (Except.ok ("What blocked you today?"))
    ("u1") ("2026-01-01") (by decide) rfl rfl (by decide)

/-- C6: when the next-question generation call throws on a turn that
passes the guard and whose end condition is false, the appended
assistant message is one of two fixed templates, selected by the number
of remaining question slots (`maxQuestions` minus the already
incremented `questionCount`): at most one remaining gives the fixed
"one specific action ... tomorrow" template, more than one the fixed
"specific challenge ... move forward" template. -/
theorem c6_text_failure_fallback (st : EngineState) (c : TurnClocks)
    (gO : ObjectGenResult) (u d : String)
    (hInput : ¬ jsTrim st.input = "") (hLoad : st.isLoading = false)
    (hOpen : st.sessionState.isComplete = false)
    (hCount : st.sessionState.questionCount + 1 < st.sessionState.maxQuestions)
    (hTime : c.tGen < st.sessionState.startTime + 1200000) :
    (sendMessage st c gO (Except.error ()) u d).1.messages =
      st.messages ++
        [pendingUserMessage st c,
         { id := toString (c.tAsstId + 1), role := Role.assistant,
           content :=
             if ((bumpedSession st).maxQuestions : Int) -
                 ((bumpedSession st).questionCount : Int) ≤ 1
             then fallbackFinalQuestion else fallbackChallengeQuestion,
           timestamp := c.tAsstTs }] ∧
    (bumpedSession st).questionCount = st.sessionState.questionCount + 1 ∧
    (bumpedSession st).maxQuestions = st.sessionState.maxQuestions := by
  have hfail : turnReply st c gO (Except.error ()) =
      if ((bumpedSession st).maxQuestions : Int) -
          ((bumpedSession st).questionCount : Int) ≤ 1
      then fallbackFinalQuestion else fallbackChallengeQuestion := by
    apply generateContextualQuestion_fallback
    exact shouldEndSession_eq_false _ _ hCount (elapsedMinutes_lt_twenty hTime) hOpen
  rw [sendMessage_run st c gO (Except.error ()) u d hInput hLoad hOpen]
  refine ⟨?_, rfl, rfl⟩
  rw [List.append_assoc]
  show st.messages ++
    [pendingUserMessage st c, turnAssistantMessage st c gO (Except.error ())] = _
  rw [turnAssistantMessage, hfail]

theorem c6_witness :
    (sendMessage exTyped cMid (Except.ok exAnalysisFunding) (Except.error ())
        ("u1") ("2026-01-01")).1.messages =
      exTyped.messages ++
        [pendingUserMessage exTyped cMid,
         { id := toString (cMid.tAsstId + 1), role := Role.assistant,
           content :=
             if ((bumpedSession exTyped).maxQuestions : Int) -
                 ((bumpedSession exTyped).questionCount : Int) ≤ 1
             then fallbackFinalQuestion else fallbackChallengeQuestion,
           timestamp := cMid.tAsstTs }] ∧
    (bumpedSession exTyped).questionCount = exTyped.sessionState.questionCount + 1 ∧
    (bumpedSession exTyped).maxQuestions = exTyped.sessionState.maxQuestions :=
  c6_text_failure_fallback exTyped cMid (Except.ok exAnalysisFunding)
    ("u1") ("2026-01-01") (by decide) rfl rfl (by decide) (by decide)

/-- C9: the end condition is evaluated at two different clock reads
inside one turn — once (inside `generateContextualQuestion`) to choose
between the closing message and a generated question, and once (after
the assistant message is built) to set `isComplete`.  When elapsed time
crosses the 20-minute threshold between the two reads, `isComplete` is
set true on a turn whose appended assistant message is the generated
question, not the fixed closing message. -/
theorem c9_end_condition_race (st : EngineState) (c : TurnClocks)
    (gO : ObjectGenResult) (t : String) (u d : String)
    (hInput : ¬ jsTrim st.input = "") (hLoad : st.isLoading = false)
    (hOpen : st.sessionState.isComplete = false)
    (hCount : st.sessionState.questionCount + 1 < st.sessionState.maxQuestions)
    (hGen : c.tGen < st.sessionState.startTime + 1200000)
    (hEnd : st.sessionState.startTime + 1200000 ≤ c.tEnd) :
    (sendMessage st c gO (Except.ok t) u d).1.messages =
      st.messages ++
        [pendingUserMessage st c,
         { id := toString (c.tAsstId + 1), role := Role.assistant,
           content := t, timestamp := c.tAsstTs }] ∧
    (sendMessage st c gO (Except.ok t) u d).1.sessionState.isComplete = true := by
  have hok : turnReply st c gO (Except.ok t) = t := by
    apply generateContextualQuestion_ok
    exact shouldEndSession_eq_false _ _ hCount (elapsedMinutes_lt_twenty hGen) hOpen
  have hdone : (turnFinalSession st c).isComplete = true := by
    show shouldEndSession (bumpedSession st)
      (((c.tEnd : ℚ) - ((bumpedSession st).startTime : ℚ)) / (1000 * 60)) = true
    exact shouldEndSession_of_time _ (elapsedMinutes_ge_twenty hEnd)
  rw [sendMessage_run st c gO (Except.ok t) u d hInput hLoad hOpen]
  refine ⟨?_, hdone⟩
  rw [List.append_assoc]
  show st.messages ++
    [pendingUserMessage st c, turnAssistantMessage st c gO (Except.ok t)] = _
  rw [turnAssistantMessage, hok]

theorem c9_witness :
    (sendMessage exTyped cRace (Except.ok exAnalysisFunding)
        (Except.ok ("What will you tackle first tomorrow?"))
        ("u1") ("2026-01-01")).1.messages =
      exTyped.messages ++
        [pendingUserMessage exTyped cRace,
         { id := toString (cRace.tAsstId + 1), role := Role.assistant,
           content := "What will you tackle first tomorrow?",
           timestamp := cRace.tAsstTs }] ∧
    (sendMessage exTyped cRace (Except.ok exAnalysisFunding)
        (Except.ok ("What will you tackle first tomorrow?"))
        ("u1") ("2026-01-01")).1.sessionState.isComplete = true :=
  c9_end_condition_race exTyped cRace (Except.ok exAnalysisFunding)
    ("What will you tackle first tomorrow?") ("u1") ("2026-01-01")
    (by decide) rfl rfl (by decide) (by decide) (by decide)

/-- C8 counterexample: on a concrete turn the coverage analysis detects
the topic `funding`, yet the resulting `SessionState.topics` is still
empty — detected topics do not appear in `SessionState.topics`, so
`topics` does not equal the set of topic labels detected so far. -/
theorem c8_counterexample :
    ("funding") ∈ (analyzeConversationContext
        (exTyped.messages ++ [pendingUserMessage exTyped cMid])
        (Except.ok exAnalysisFunding)).topics ∧
    (sendMessage exTyped cMid (Except.ok exAnalysisFunding)
        (Except.ok ("And how is the team doing?"))
        ("u1") ("2026-01-01")).1.sessionState.topics = [] ∧
    ¬ ("funding") ∈ (sendMessage exTyped cMid (Except.ok exAnalysisFunding)
        (Except.ok ("And how is the team doing?"))
        ("u1") ("2026-01-01")).1.sessionState.topics :=
  ⟨by decide, rfl, by decide⟩

/-- C8 (amended): `SessionState.topics` is never written after
initialization: for every reachable session state it is the empty list
installed by `startReflection`, and it stays empty across any further
`sendMessage`; topics detected by the per-turn coverage analysis are
used only transiently and are not merged into `SessionState.topics`. -/
theorem c8_topics_never_populated (u d : String) (st : EngineState)
    (h : Reachable u d st) (c : TurnClocks)
    (gO : ObjectGenResult) (gT : TextGenResult) :
    st.sessionState.topics = [] ∧
    (sendMessage st c gO gT u d).1.sessionState.topics = [] := by
  refine ⟨(reachable_inv u d st h).2.2.2, ?_⟩
  exact (reachable_inv u d (sendMessage st c gO gT u d).1
    (Reachable.turn st c gO gT h)).2.2.2

theorem c8_witness :
    exTyped.sessionState.topics = [] ∧
    (sendMessage exTyped cMid (Except.ok exAnalysisFunding)
        (Except.ok ("And how is the team doing?"))
        ("u1") ("2026-01-01")).1.sessionState.topics = [] :=
  c8_topics_never_populated ("u1") ("2026-01-01") exTyped exTyped_reachable
    cMid (Except.ok exAnalysisFunding) (Except.ok ("And how is the team doing?"))

end FounderReflect
